import Mathlib

/-!
Verification of the resilience core of pavann19/resilient-microservices.

Shallow embedding of the Python sources:
  src/service_a/main.py  (datasets endpoint: CoinGecko prices, cache, 60s cooldown)
  src/service_b/main.py  (stats endpoint: GitHub search, cache, 30s cooldown)
  src/service_c/main.py  (lineage endpoint: GitHub search, cache, 30s cooldown)
  src/gateway/main.py    (aggregate endpoint: per-source try/except, fallback for b,
                          last-known-good CACHE)
  src/fallback/main.py   (constant default endpoint)

The services wrap their upstream fetches in the tenacity decorator
  retry(stop=stop_after_attempt(3), wait=wait_exponential(multiplier, min, max)).
Tenacity 8.2.2 semantics embedded below (from tenacity/__init__.py, wait.py,
stop.py, retry.py):
  - the default retry predicate is retry_if_exception_type(Exception), so every
    failing attempt (transport error, timeout, raise_for_status, JSON decode) is
    retried until stop_after_attempt(3) is reached;
  - the default reraise=False means that after the attempts are exhausted the
    decorated function raises tenacity.RetryError (wrapping the last attempt),
    which is not an httpx.HTTPStatusError;
  - wait_exponential yields, after attempt number k fails,
    max(max(0, min), min(multiplier * exp_base ^ (k - 1), max)) with exp_base 2.

Time is modelled in whole seconds as Nat (Python time.time()); wait durations
and timeouts keep their source literals as rationals.
-/

namespace Resilient

/-! ## Exceptions and the tenacity retry loop -/

/-- Python exceptions as the services distinguish them: an
httpx.HTTPStatusError carrying the response status code (none when the
response attribute is None), the tenacity.RetryError wrapper produced when the
retry budget is exhausted, and every other exception (transport errors,
timeouts, JSON decode failures, ...). -/
inductive PyExc where
  | httpStatusError (code : Option Nat)
  | retryError (last : PyExc)
  | otherExc
deriving DecidableEq

/-- HTTP status carried by a failure, looking through the RetryError wrapper. -/
def PyExc.statusCode : PyExc → Option Nat
  | .httpStatusError c => c
  | .retryError l => l.statusCode
  | .otherExc => none

/-- Outcome of one single network attempt inside the retried fetch: a 2xx
response with decoded JSON body, a non-2xx response (raise_for_status raises
httpx.HTTPStatusError with this code), or any other failure (connect error,
timeout, undecodable body). -/
inductive Attempt (δ : Type) where
  | ok (data : δ)
  | httpStatus (code : Nat)
  | transport
deriving DecidableEq

def Attempt.isOk {δ : Type} : Attempt δ → Bool
  | .ok _ => true
  | _ => false

/-- The exception a failing attempt raises. -/
def Attempt.exc {δ : Type} : Attempt δ → PyExc
  | .ok _ => .otherExc
  | .httpStatus c => .httpStatusError (some c)
  | .transport => .otherExc

/-- Tenacity retry loop with stop_after_attempt: run attempts i, i+1, ... while
fuel remains; return the first success; once the budget is exhausted raise
RetryError wrapping the last attempt exception (reraise is left at its default
False in all four call sites). Also returns how many attempts were sent. -/
def tenacityGo {δ : Type} (env : Nat → Attempt δ) : Nat → Nat → Except PyExc δ × Nat
  | i, 0 => (.error (.retryError .otherExc), i)
  | i, r + 1 =>
    match env i with
    | .ok d => (.ok d, i + 1)
    | .httpStatus c =>
        if r = 0 then (.error (.retryError (.httpStatusError (some c))), i + 1)
        else tenacityGo env (i + 1) r
    | .transport =>
        if r = 0 then (.error (.retryError .otherExc), i + 1)
        else tenacityGo env (i + 1) r

/-- A decorated fetch with stop_after_attempt(maxAttempts): the environment
maps the attempt index (0-based) to what that network attempt would do. -/
def tenacityRun {δ : Type} (maxAttempts : Nat) (env : Nat → Attempt δ) :
    Except PyExc δ × Nat :=
  tenacityGo env 0 maxAttempts

/-- Retry configuration of one call site: stop_after_attempt bound and the
wait_exponential keyword arguments (multiplier, min, max; exp_base is left at
its default 2). -/
structure RetryPolicy where
  maxAttempts : Nat
  multiplier : ℚ
  min : ℚ
  max : ℚ
deriving DecidableEq

/-- gateway/main.py line 28:
retry(stop=stop_after_attempt(3), wait=wait_exponential(multiplier=0.2, min=0.2, max=1.0)). -/
def gatewayPolicy : RetryPolicy := ⟨3, 0.2, 0.2, 1.0⟩

/-- service_a line 21, service_b line 22, service_c line 22:
retry(stop=stop_after_attempt(3), wait=wait_exponential(multiplier=0.5, min=0.5, max=2.0)). -/
def servicePolicy : RetryPolicy := ⟨3, 0.5, 0.5, 2.0⟩

/-- tenacity 8.2.2 wait.py, wait_exponential with exp_base 2: the sleep
computed after attempt number attemptNumber (1-based) fails. -/
def wait_exponential (p : RetryPolicy) (attemptNumber : Nat) : ℚ :=
  max (max 0 p.min) (min (p.multiplier * 2 ^ (attemptNumber - 1)) p.max)

/-- The backoff formula exactly as the spec words it (for comparison with the
sourced wait_exponential): wait min(base * 2 ^ (attempt - 1), cap) clamped to
the interval from min to cap, where base is the multiplier, cap the max, and
min equals base at every call site. -/
def specClaimedWait (p : RetryPolicy) (attemptNumber : Nat) : ℚ :=
  max p.min (min (p.multiplier * 2 ^ (attemptNumber - 1)) p.max)

/-- httpx.AsyncClient(timeout=5.0): every attempt in every service constructs a
fresh client with this timeout (service_a line 23, service_b line 24,
service_c line 24, gateway line 31). -/
def clientTimeout : ℚ := 5.0

/-! ## Service B (src/service_b/main.py) -/

/-- One element of the items array of the GitHub search response; each field
is read with dict.get and may be absent. -/
structure RepoItem where
  full_name : Option String
  stargazers_count : Option Int
  html_url : Option String
deriving DecidableEq

/-- One element of the repos list the services build. -/
structure Repo where
  name : Option String
  stars : Option Int
  url : Option String
deriving DecidableEq

/-- Decoded JSON body of a GitHub search response as services b and c read it:
items = data.get("items", []) if isinstance(data, dict) else []. A dict
without an items key behaves as dict with an empty list. -/
inductive GhData where
  | dict (itemList : List RepoItem)
  | nonDict
deriving DecidableEq

def GhData.items : GhData → List RepoItem
  | .dict l => l
  | .nonDict => []

/-- The repo-building loop of service_b lines 51-56 (service_c line 49 builds
the same records with the fields written in a different order; the record
content is identical). -/
def parseRepos (items : List RepoItem) : List Repo :=
  items.map (fun it => ⟨it.full_name, it.stargazers_count, it.html_url⟩)

/-- Module state of service_b: B_CACHE = {"repos": []} and B_COOLDOWN_UNTIL = 0
(0 means unset, Python falsiness). -/
structure BState where
  repos : List Repo
  cooldownUntil : Nat
deriving DecidableEq

def BState.init : BState := ⟨[], 0⟩

/-- Response body of the stats endpoint:
{"service": "B - GitHub Stats", "usd_rate": None, "repos": repos}. -/
structure BPayload where
  service : String
  usd_rate : Option Int
  repos : List Repo
deriving DecidableEq

def bPayload (repos : List Repo) : BPayload := ⟨"B - GitHub Stats", none, repos⟩

/-- Result of one endpoint invocation: the module state afterwards, the JSON
body returned, and how many upstream network attempts were sent. -/
structure Invocation (σ π : Type) where
  state : σ
  payload : π
  upstreamAttempts : Nat
deriving DecidableEq

/-- The stats endpoint of service_b lines 30-75. Control flow of the source:
if B_COOLDOWN_UNTIL and time.time() < B_COOLDOWN_UNTIL, return the cached
repos without fetching; otherwise await fetch_github (the tenacity-decorated
fetch, 3 attempts); on success build repos, update B_CACHE only when repos is
non-empty, and return the fresh repos; on httpx.HTTPStatusError set
B_COOLDOWN_UNTIL = now + 30 when the status is 403 or 429 and return the
cache; on any other exception (including tenacity.RetryError) just return the
cache. -/
def stats (now : Nat) (st : BState) (env : Nat → Attempt GhData) :
    Invocation BState BPayload :=
  if st.cooldownUntil ≠ 0 ∧ now < st.cooldownUntil then
    ⟨st, bPayload st.repos, 0⟩
  else
    match tenacityRun 3 env with
    | (.ok data, n) =>
      let repos := parseRepos data.items
      ⟨if repos ≠ [] then ⟨repos, st.cooldownUntil⟩ else st, bPayload repos, n⟩
    | (.error (.httpStatusError code), n) =>
      if code = some 403 ∨ code = some 429 then
        ⟨⟨st.repos, now + 30⟩, bPayload st.repos, n⟩
      else ⟨st, bPayload st.repos, n⟩
    | (.error _, n) => ⟨st, bPayload st.repos, n⟩

/-! ## Service C (src/service_c/main.py) -/

/-- Module state of service_c: C_CACHE = {"repos": []}, C_COOLDOWN_UNTIL = 0. -/
structure CState where
  repos : List Repo
  cooldownUntil : Nat
deriving DecidableEq

def CState.init : CState := ⟨[], 0⟩

/-- Response body of the lineage endpoint:
{"service": "C - Lineage Service", "repos": repos}. -/
structure CPayload where
  service : String
  repos : List Repo
deriving DecidableEq

def cPayload (repos : List Repo) : CPayload := ⟨"C - Lineage Service", repos⟩

/-- The lineage endpoint of service_c lines 30-66; same structure as stats,
with a 30s cooldown on status 403 or 429. -/
def lineage (now : Nat) (st : CState) (env : Nat → Attempt GhData) :
    Invocation CState CPayload :=
  if st.cooldownUntil ≠ 0 ∧ now < st.cooldownUntil then
    ⟨st, cPayload st.repos, 0⟩
  else
    match tenacityRun 3 env with
    | (.ok data, n) =>
      let repos := parseRepos data.items
      ⟨if repos ≠ [] then ⟨repos, st.cooldownUntil⟩ else st, cPayload repos, n⟩
    | (.error (.httpStatusError code), n) =>
      if code = some 403 ∨ code = some 429 then
        ⟨⟨st.repos, now + 30⟩, cPayload st.repos, n⟩
      else ⟨st, cPayload st.repos, n⟩
    | (.error _, n) => ⟨st, cPayload st.repos, n⟩

/-! ## Service A (src/service_a/main.py) -/

/-- Decoded JSON body of the CoinGecko simple-price response as service_a
reads it: for each of bitcoin and ethereum, data.get(k, {}).get("usd") is
either absent or a number; the number only ever appears inside the f-string
"{k}: ${v}", so it is carried here already rendered as its string form. (A
body under which the lookup itself raises, for example a non-dict value under
a coin key, lands in the generic except branch like any other exception.) -/
inductive AData where
  | dict (bitcoin ethereum : Option String)
  | nonDict
deriving DecidableEq

/-- The dataset-building loop of service_a lines 41-46, iterating bitcoin then
ethereum and appending "k: $v" when the usd value is present. -/
def parseDatasets : AData → List String
  | .dict b e =>
      (match b with | some v => ["bitcoin: $" ++ v] | none => []) ++
      (match e with | some v => ["ethereum: $" ++ v] | none => [])
  | .nonDict => []

/-- Module state of service_a: CACHE = {"datasets": ["bitcoin: -",
"ethereum: -"]} and A_COOLDOWN_UNTIL = 0. -/
structure AState where
  datasets : List String
  cooldownUntil : Nat
deriving DecidableEq

def AState.init : AState := ⟨["bitcoin: -", "ethereum: -"], 0⟩

/-- Response body of the datasets endpoint:
{"service": "Metadata Service A (crypto)", "datasets": datasets}. -/
structure APayload where
  service : String
  datasets : List String
deriving DecidableEq

def aPayload (ds : List String) : APayload := ⟨"Metadata Service A (crypto)", ds⟩

/-- The datasets endpoint of service_a lines 16-68: cooldown check inside the
try (early return of the cache), then the tenacity-decorated fetch; on success
update CACHE only when the parsed list is non-empty and return the fresh list;
on httpx.HTTPStatusError set A_COOLDOWN_UNTIL = now + 60 when the status is
exactly 429 and return the cache; on any other exception return the cache. -/
def datasets (now : Nat) (st : AState) (env : Nat → Attempt AData) :
    Invocation AState APayload :=
  if st.cooldownUntil ≠ 0 ∧ now < st.cooldownUntil then
    ⟨st, aPayload st.datasets, 0⟩
  else
    match tenacityRun 3 env with
    | (.ok data, n) =>
      let ds := parseDatasets data
      ⟨if ds ≠ [] then ⟨ds, st.cooldownUntil⟩ else st, aPayload ds, n⟩
    | (.error (.httpStatusError code), n) =>
      if code = some 429 then ⟨⟨st.datasets, now + 60⟩, aPayload st.datasets, n⟩
      else ⟨st, aPayload st.datasets, n⟩
    | (.error _, n) => ⟨st, aPayload st.datasets, n⟩

/-! ## Fallback service and gateway (src/fallback/main.py, src/gateway/main.py) -/

/-- A JSON value as the gateway inspects one: the gateway only asks
isinstance(x, dict) and whether the key datasets is present, so the payload
shapes that occur in this system are enumerated. -/
inductive GwPayload where
  | objA (p : APayload)
  | objB (p : BPayload)
  | objC (p : CPayload)
  | objFallback (service message : String)
  | nonDict
deriving DecidableEq

/-- isinstance(x, dict). -/
def GwPayload.isDict : GwPayload → Bool
  | .nonDict => false
  | _ => true

/-- Python: "datasets" in x. -/
def GwPayload.hasKeyDatasets : GwPayload → Bool
  | .objA _ => true
  | _ => false

/-- Python: "repos" in x. -/
def GwPayload.hasKeyRepos : GwPayload → Bool
  | .objB _ => true
  | .objC _ => true
  | _ => false

/-- The default endpoint of src/fallback/main.py lines 9-14: a zero-argument
handler returning this literal on every request. -/
def fallback_default : GwPayload := .objFallback "fallback" "using fallback service"

/-- Gateway module state, CACHE of gateway/main.py lines 12-16, one
last-known-good slot per source. -/
structure GwCache where
  a : GwPayload
  b : GwPayload
  c : GwPayload
deriving DecidableEq

/-- The seed literals of gateway/main.py lines 12-16. -/
def seedCache : GwCache :=
  ⟨.objA ⟨"Metadata Service A (crypto)", ["bitcoin: -", "ethereum: -"]⟩,
   .objB ⟨"B - GitHub Stats", none, []⟩,
   .objC ⟨"C - Lineage Service", []⟩⟩

/-- The JSON object returned by the aggregate endpoint (gateway line 79),
together with the CACHE state afterwards and whether the fallback tier was
called. -/
structure AggregateResult where
  cache : GwCache
  gateway : String
  a : GwPayload
  a_status : String
  b : GwPayload
  b_status : String
  c : GwPayload
  c_status : String
  fallbackCalled : Bool
deriving DecidableEq

/-- The aggregate endpoint of gateway/main.py lines 36-79. Each argument is
the outcome of one awaited call (itself the tenacity-decorated call with
gatewayPolicy): ra of GET a/datasets, rb of GET b/stats, rfb of GET
fallback/default, rc of GET c/lineage; rfb is only consulted when rb failed.
Source control flow: fetch a, on success cache it when it is a dict containing
the key datasets, status UP; on any exception use CACHE and status DOWN.
Fetch b, on success cache it when it is a dict, status UP; on exception try
the fallback, on fallback success cache it when it is a dict, status
FALLBACK; when both fail use CACHE and status DOWN. Fetch c like a but with
the dict check only. The response always carries gateway UP. -/
def aggregate (st : GwCache) (ra rb rfb rc : Except PyExc GwPayload) :
    AggregateResult :=
  let resA :=
    match ra with
    | .ok a => (if a.isDict && a.hasKeyDatasets then a else st.a, a, "UP")
    | .error _ => (st.a, st.a, "DOWN")
  let resB :=
    match rb with
    | .ok b => ((if b.isDict then b else st.b), b, "UP", false)
    | .error _ =>
      match rfb with
      | .ok fb => ((if fb.isDict then fb else st.b), fb, "FALLBACK", true)
      | .error _ => (st.b, st.b, "DOWN", true)
  let resC :=
    match rc with
    | .ok c => ((if c.isDict then c else st.c), c, "UP")
    | .error _ => (st.c, st.c, "DOWN")
  ⟨⟨resA.1, resB.1, resC.1⟩, "UP",
   resA.2.1, resA.2.2, resB.2.1, resB.2.2.1, resC.2.1, resC.2.2, resB.2.2.2⟩

/-! ## Theorems -/

/-- C3: for every combination of sub-source outcomes (including all failing),
aggregate returns a well-formed result (it is a total function), the overall
gateway field is UP, and each source is resolved independently of the
outcomes of the other sources. -/
theorem C3_spec (st : GwCache) (ra rb rfb rc ra' rb' rfb' rc' : Except PyExc GwPayload) :
    (aggregate st ra rb rfb rc).gateway = "UP" ∧
    ((aggregate st ra rb rfb rc).a = (aggregate st ra rb' rfb' rc').a ∧
     (aggregate st ra rb rfb rc).a_status = (aggregate st ra rb' rfb' rc').a_status) ∧
    ((aggregate st ra rb rfb rc).b = (aggregate st ra' rb rfb rc').b ∧
     (aggregate st ra rb rfb rc).b_status = (aggregate st ra' rb rfb rc').b_status) ∧
    ((aggregate st ra rb rfb rc).c = (aggregate st ra' rb' rfb' rc).c ∧
     (aggregate st ra rb rfb rc).c_status = (aggregate st ra' rb' rfb' rc).c_status) := by
  cases ra <;> cases rb <;> cases rfb <;> cases rc <;>
    exact ⟨rfl, ⟨rfl, rfl⟩, ⟨rfl, rfl⟩, ⟨rfl, rfl⟩⟩

/-- C9: the fallback default endpoint is the constant payload
service fallback, message using fallback service, which carries no repos
field; and a fallback success for source b overwrites the gateway cache slot
for b with exactly that payload. -/
theorem C9_spec (st : GwCache) (ra rc : Except PyExc GwPayload) (e : PyExc) :
    fallback_default = .objFallback "fallback" "using fallback service" ∧
    fallback_default.hasKeyRepos = false ∧
    (aggregate st ra (.error e) (.ok fallback_default) rc).cache.b = fallback_default ∧
    (aggregate st ra (.error e) (.ok fallback_default) rc).b_status = "FALLBACK" := by
  cases ra <;> cases rc <;> exact ⟨rfl, rfl, rfl, rfl⟩

/-- C6: the fallback tier is consulted exactly when the primary call for b
fails; sources a and c have no fallback tier (their status is never
FALLBACK); and when the fallback attempt succeeds with a dict payload the
reported status is FALLBACK and the cache slot for b is overwritten with the
fallback payload. -/
theorem C6_spec (st : GwCache) (ra rb rfb rc : Except PyExc GwPayload) :
    ((aggregate st ra rb rfb rc).fallbackCalled = true ↔ ∃ e, rb = Except.error e) ∧
    (aggregate st ra rb rfb rc).a_status ≠ "FALLBACK" ∧
    (aggregate st ra rb rfb rc).c_status ≠ "FALLBACK" ∧
    (∀ e fb, rb = Except.error e → rfb = Except.ok fb → fb.isDict = true →
      (aggregate st ra rb rfb rc).b_status = "FALLBACK" ∧
      (aggregate st ra rb rfb rc).cache.b = fb ∧
      (aggregate st ra rb rfb rc).b = fb) := by
  cases ra <;> cases rb <;> cases rfb <;> cases rc <;>
    simp [aggregate] <;> intro h <;> simp [h]

/-- Witness for C6 at a concrete input: primary b fails with a transport
error, the fallback succeeds with the fallback payload. -/
theorem C6_witness :
    ((aggregate seedCache (.ok (.objA (aPayload ["bitcoin: $1"])))
        (.error .otherExc) (.ok fallback_default) (.error .otherExc)).fallbackCalled = true ↔
      ∃ e, (Except.error .otherExc : Except PyExc GwPayload) = Except.error e) ∧
    (aggregate seedCache (.ok (.objA (aPayload ["bitcoin: $1"])))
        (.error .otherExc) (.ok fallback_default) (.error .otherExc)).b_status = "FALLBACK" ∧
    (aggregate seedCache (.ok (.objA (aPayload ["bitcoin: $1"])))
        (.error .otherExc) (.ok fallback_default) (.error .otherExc)).cache.b = fallback_default := by
  refine ⟨(C6_spec _ _ _ _ _).1, ?_, ?_⟩
  · exact ((C6_spec seedCache (.ok (.objA (aPayload ["bitcoin: $1"]))) (.error .otherExc)
      (.ok fallback_default) (.error .otherExc)).2.2.2 .otherExc fallback_default rfl rfl rfl).1
  · exact ((C6_spec seedCache (.ok (.objA (aPayload ["bitcoin: $1"]))) (.error .otherExc)
      (.ok fallback_default) (.error .otherExc)).2.2.2 .otherExc fallback_default rfl rfl rfl).2.1

/-- Helper: when all three attempts fail, the decorated fetch raises the
RetryError wrapping the last attempt exception, after sending 3 attempts. -/
theorem tenacityRun_fail {δ : Type} (env : Nat → Attempt δ)
    (h0 : (env 0).isOk = false) (h1 : (env 1).isOk = false) (h2 : (env 2).isOk = false) :
    tenacityRun 3 env = (.error (.retryError (env 2).exc), 3) := by
  cases e0 : env 0 <;> cases e1 : env 1 <;> cases e2 : env 2 <;>
    simp_all [Attempt.isOk, tenacityRun, tenacityGo, Attempt.exc]

/-- Helper: the decorated fetch sends at most 3 attempts. -/
theorem tenacityRun_le {δ : Type} (env : Nat → Attempt δ) :
    (tenacityRun 3 env).2 ≤ 3 := by
  cases e0 : env 0 <;> cases e1 : env 1 <;> cases e2 : env 2 <;>
    simp_all [tenacityRun, tenacityGo]

/-- Helper: the decorated fetch only fails after all 3 attempts failed. -/
theorem tenacityRun_error {δ : Type} (env : Nat → Attempt δ) (e : PyExc)
    (h : (tenacityRun 3 env).1 = .error e) :
    (tenacityRun 3 env).2 = 3 ∧
    (env 0).isOk = false ∧ (env 1).isOk = false ∧ (env 2).isOk = false := by
  cases e0 : env 0 <;> cases e1 : env 1 <;> cases e2 : env 2 <;>
    simp_all [tenacityRun, tenacityGo, Attempt.isOk]

/-- C1 as stated is false on the code: with the cooldown gate of service b
armed (expiry 100, now 50), the service sends no upstream attempt and returns
the cached repos verbatim, but the service response is a successful HTTP
response, so the gateway reports source b UP, not DOWN. -/
theorem C1_counterexample :
    (stats 50 ⟨[⟨some "octocat/Hello-World", some 100000, some "u"⟩], 100⟩
        (fun _ => .transport)).upstreamAttempts = 0 ∧
    (stats 50 ⟨[⟨some "octocat/Hello-World", some 100000, some "u"⟩], 100⟩
        (fun _ => .transport)).payload =
      bPayload [⟨some "octocat/Hello-World", some 100000, some "u"⟩] ∧
    (aggregate seedCache (.error .otherExc)
        (.ok (.objB (stats 50 ⟨[⟨some "octocat/Hello-World", some 100000, some "u"⟩], 100⟩
          (fun _ => .transport)).payload))
        (.error .otherExc) (.error .otherExc)).b_status = "UP" ∧
    (aggregate seedCache (.error .otherExc)
        (.ok (.objB (stats 50 ⟨[⟨some "octocat/Hello-World", some 100000, some "u"⟩], 100⟩
          (fun _ => .transport)).payload))
        (.error .otherExc) (.error .otherExc)).b_status ≠ "DOWN" := by
  decide

/-- C2 as stated is false on the code: with a non-empty prior cache, a
successful primary call whose parsed payload is empty leaves the cache
unchanged, but the payload returned to the caller is the fresh empty result,
not the pre-existing cache value. -/
theorem C2_counterexample :
    (stats 0 ⟨[⟨some "octocat/Hello-World", some 1, some "u"⟩], 0⟩
        (fun _ => .ok (.dict []))).state =
      ⟨[⟨some "octocat/Hello-World", some 1, some "u"⟩], 0⟩ ∧
    (stats 0 ⟨[⟨some "octocat/Hello-World", some 1, some "u"⟩], 0⟩
        (fun _ => .ok (.dict []))).payload = bPayload [] ∧
    (stats 0 ⟨[⟨some "octocat/Hello-World", some 1, some "u"⟩], 0⟩
        (fun _ => .ok (.dict []))).payload ≠
      bPayload [⟨some "octocat/Hello-World", some 1, some "u"⟩] := by
  decide

/-- C4 is right about the intent but the code never arms the gate: when every
attempt returns a rate-limit status, the decorated fetch raises
tenacity.RetryError (reraise is False), the except httpx.HTTPStatusError arm
does not match, and the cooldown stays 0 instead of now + 60 (a) or
now + 30 (b, c). -/
theorem C4_bug_eval :
    datasets 1000 ⟨["bitcoin: -", "ethereum: -"], 0⟩ (fun _ => .httpStatus 429) =
      ⟨⟨["bitcoin: -", "ethereum: -"], 0⟩, aPayload ["bitcoin: -", "ethereum: -"], 3⟩ ∧
    stats 1000 BState.init (fun _ => .httpStatus 429) =
      ⟨⟨[], 0⟩, bPayload [], 3⟩ ∧
    lineage 1000 CState.init (fun _ => .httpStatus 403) =
      ⟨⟨[], 0⟩, cPayload [], 3⟩ ∧
    (datasets 1000 ⟨["bitcoin: -", "ethereum: -"], 0⟩
        (fun _ => .httpStatus 429)).state.cooldownUntil ≠ 1000 + 60 ∧
    (stats 1000 BState.init (fun _ => .httpStatus 429)).state.cooldownUntil ≠ 1000 + 30 := by
  decide

/-- C5 as stated is false on the code: an HTTP 429 on the first attempt is
retried like any failure, so two further attempts are sent (3 in total), and
afterwards the cooldown gate is not armed at all. -/
theorem C5_counterexample :
    (stats 500 BState.init (fun _ => .httpStatus 429)).upstreamAttempts = 3 ∧
    (stats 500 BState.init (fun _ => .httpStatus 429)).upstreamAttempts ≠ 1 ∧
    (stats 500 BState.init (fun _ => .httpStatus 429)).state.cooldownUntil = 0 ∧
    (stats 500 BState.init (fun _ => .httpStatus 429)).state.cooldownUntil ≠ 500 + 30 := by
  decide

/-- C7 as stated is false on the code for every gateway cache slot: one
aggregate call in which each service responds successfully with an empty
payload overwrites all three slots, erasing previously cached non-empty
values, because the update guards check only the dict shape (for slot a
additionally the presence of the datasets key) and never non-emptiness; and
a fallback success overwrites slot b with the fallback payload, which has no
repos field at all. -/
theorem C7_counterexample :
    (aggregate
        ⟨.objA (aPayload ["bitcoin: $1"]), .objB (bPayload [⟨some "r", some 1, some "u"⟩]),
         .objC (cPayload [⟨some "r", some 1, some "u"⟩])⟩
        (.ok (.objA (aPayload []))) (.ok (.objB (bPayload [])))
        (.error .otherExc) (.ok (.objC (cPayload [])))).cache =
      ⟨.objA (aPayload []), .objB (bPayload []), .objC (cPayload [])⟩ ∧
    (aPayload []).datasets = [] ∧ (bPayload []).repos = [] ∧ (cPayload []).repos = [] ∧
    (aggregate
        ⟨.objA (aPayload ["bitcoin: $1"]), .objB (bPayload [⟨some "r", some 1, some "u"⟩]),
         .objC (cPayload [⟨some "r", some 1, some "u"⟩])⟩
        (.error .otherExc) (.error .otherExc) (.ok fallback_default)
        (.error .otherExc)).cache.b = fallback_default ∧
    fallback_default.hasKeyRepos = false := by
  decide

/-- C1 amended: for every source whose cooldown gate is armed (expiry nonzero
and now < expiry), an invocation of that source sends no attempt to its
upstream, leaves the source state unchanged and returns the cached payload
verbatim; but because that is a successful HTTP response, the gateway that
receives it reports the source as UP, not DOWN. -/
theorem C1_amended (now : Nat) (sa : AState) (sb : BState) (sc : CState)
    (envA : Nat → Attempt AData) (envB envC : Nat → Attempt GhData)
    (st : GwCache) (rfb : Except PyExc GwPayload)
    (ha : sa.cooldownUntil ≠ 0 ∧ now < sa.cooldownUntil)
    (hb : sb.cooldownUntil ≠ 0 ∧ now < sb.cooldownUntil)
    (hc : sc.cooldownUntil ≠ 0 ∧ now < sc.cooldownUntil) :
    datasets now sa envA = ⟨sa, aPayload sa.datasets, 0⟩ ∧
    stats now sb envB = ⟨sb, bPayload sb.repos, 0⟩ ∧
    lineage now sc envC = ⟨sc, cPayload sc.repos, 0⟩ ∧
    (aggregate st (.ok (.objA (datasets now sa envA).payload))
        (.ok (.objB (stats now sb envB).payload)) rfb
        (.ok (.objC (lineage now sc envC).payload))).a_status = "UP" ∧
    (aggregate st (.ok (.objA (datasets now sa envA).payload))
        (.ok (.objB (stats now sb envB).payload)) rfb
        (.ok (.objC (lineage now sc envC).payload))).b_status = "UP" ∧
    (aggregate st (.ok (.objA (datasets now sa envA).payload))
        (.ok (.objB (stats now sb envB).payload)) rfb
        (.ok (.objC (lineage now sc envC).payload))).c_status = "UP" := by
  have h1 : datasets now sa envA = ⟨sa, aPayload sa.datasets, 0⟩ := by
    simp [datasets, ha]
  have h2 : stats now sb envB = ⟨sb, bPayload sb.repos, 0⟩ := by
    simp [stats, hb]
  have h3 : lineage now sc envC = ⟨sc, cPayload sc.repos, 0⟩ := by
    simp [lineage, hc]
  exact ⟨h1, h2, h3, rfl, rfl, rfl⟩

/-- Witness for C1 amended at a concrete armed state (expiry 100, now 50). -/
theorem C1_witness :
    stats 50 ⟨[], 100⟩ (fun _ => .transport) = ⟨⟨[], 100⟩, bPayload [], 0⟩ ∧
    (aggregate seedCache
        (.ok (.objA (datasets 50 ⟨["x"], 100⟩ (fun _ => .transport)).payload))
        (.ok (.objB (stats 50 ⟨[], 100⟩ (fun _ => .transport)).payload))
        (.error .otherExc)
        (.ok (.objC (lineage 50 ⟨[], 100⟩ (fun _ => .transport)).payload))).b_status = "UP" := by
  refine ⟨?_, ?_⟩
  · exact (C1_amended 50 ⟨["x"], 100⟩ ⟨[], 100⟩ ⟨[], 100⟩ (fun _ => .transport)
      (fun _ => .transport) (fun _ => .transport) seedCache (.error .otherExc)
      (by decide) (by decide) (by decide)).2.1
  · exact (C1_amended 50 ⟨["x"], 100⟩ ⟨[], 100⟩ ⟨[], 100⟩ (fun _ => .transport)
      (fun _ => .transport) (fun _ => .transport) seedCache (.error .otherExc)
      (by decide) (by decide) (by decide)).2.2.2.2.1

/-- C2 amended: for every source not in cooldown, if the primary call succeeds
but the parsed payload is empty, the source state (cache and gate) is
unchanged from its prior value, and the payload returned to the caller is the
fresh empty result, not the pre-existing cache. -/
theorem C2_amended (now : Nat) (sa : AState) (sb : BState) (sc : CState)
    (da : AData) (db dc : GhData)
    (hna : ¬(sa.cooldownUntil ≠ 0 ∧ now < sa.cooldownUntil))
    (hnb : ¬(sb.cooldownUntil ≠ 0 ∧ now < sb.cooldownUntil))
    (hnc : ¬(sc.cooldownUntil ≠ 0 ∧ now < sc.cooldownUntil))
    (hda : parseDatasets da = []) (hdb : parseRepos db.items = [])
    (hdc : parseRepos dc.items = []) :
    datasets now sa (fun _ => .ok da) = ⟨sa, aPayload [], 1⟩ ∧
    stats now sb (fun _ => .ok db) = ⟨sb, bPayload [], 1⟩ ∧
    lineage now sc (fun _ => .ok dc) = ⟨sc, cPayload [], 1⟩ := by
  refine ⟨?_, ?_, ?_⟩
  · simp [datasets, hna, tenacityRun, tenacityGo, hda]
  · simp [stats, hnb, tenacityRun, tenacityGo, hdb]
  · simp [lineage, hnc, tenacityRun, tenacityGo, hdc]

/-- Witness for C2 amended: empty CoinGecko prices and empty GitHub item
lists against non-empty prior caches. -/
theorem C2_witness :
    datasets 5 ⟨["bitcoin: $1"], 0⟩ (fun _ => .ok (.dict none none)) =
      ⟨⟨["bitcoin: $1"], 0⟩, aPayload [], 1⟩ ∧
    stats 5 ⟨[⟨some "r", some 1, some "u"⟩], 0⟩ (fun _ => .ok (.dict [])) =
      ⟨⟨[⟨some "r", some 1, some "u"⟩], 0⟩, bPayload [], 1⟩ := by
  refine ⟨?_, ?_⟩
  · exact (C2_amended 5 ⟨["bitcoin: $1"], 0⟩ ⟨[⟨some "r", some 1, some "u"⟩], 0⟩
      ⟨[], 0⟩ (.dict none none) (.dict []) (.dict [])
      (by decide) (by decide) (by decide) (by decide) (by decide) (by decide)).1
  · exact (C2_amended 5 ⟨["bitcoin: $1"], 0⟩ ⟨[⟨some "r", some 1, some "u"⟩], 0⟩
      ⟨[], 0⟩ (.dict none none) (.dict []) (.dict [])
      (by decide) (by decide) (by decide) (by decide) (by decide) (by decide)).2.1

/-- C5 amended: a single HTTP 429 on the first attempt neither short-circuits
the retry budget nor arms the cooldown gate: the decorated fetch retries
rate-limit responses like any other failure, so when the later attempts also
fail the full budget of 3 attempts is sent, and the resulting failure is a
tenacity.RetryError, which the except httpx.HTTPStatusError arm does not
match, so the source state (gate included) is left unchanged. -/
theorem C5_amended (now : Nat) (sb : BState) (env : Nat → Attempt GhData)
    (hgate : ¬(sb.cooldownUntil ≠ 0 ∧ now < sb.cooldownUntil))
    (h0 : env 0 = .httpStatus 429)
    (h1 : (env 1).isOk = false) (h2 : (env 2).isOk = false) :
    (stats now sb env).upstreamAttempts = 3 ∧ (stats now sb env).state = sb := by
  have h0' : (env 0).isOk = false := by rw [h0]; rfl
  have hr := tenacityRun_fail env h0' h1 h2
  simp [stats, hgate, hr]

/-- Witness for C5 amended: 429 on every attempt, gate initially unset. -/
theorem C5_witness :
    (stats 500 BState.init (fun _ => .httpStatus 429)).upstreamAttempts = 3 ∧
    (stats 500 BState.init (fun _ => .httpStatus 429)).state = BState.init := by
  exact C5_amended 500 BState.init (fun _ => .httpStatus 429)
    (by decide) rfl rfl rfl

/-- C8: every upstream fetch makes at most 3 attempts and fails only after
all 3 are exhausted; the tenacity wait before the next attempt after attempt
k fails equals the claimed formula min(base * 2 ^ (k - 1), cap) clamped to
the interval from min to cap, at both configured policies; the per-source
base (multiplier, equal to min at every call site) lies in 0.2 to 0.5 and the
cap in 1.0 to 2.0; the attempt budget is 3 at both policies and every attempt
constructs a fresh client with timeout 5 seconds. -/
theorem C8_spec (env : Nat → Attempt GhData) :
    (tenacityRun 3 env).2 ≤ 3 ∧
    (∀ e, (tenacityRun 3 env).1 = .error e →
      (tenacityRun 3 env).2 = 3 ∧
      (env 0).isOk = false ∧ (env 1).isOk = false ∧ (env 2).isOk = false) ∧
    (∀ k, wait_exponential gatewayPolicy k = specClaimedWait gatewayPolicy k) ∧
    (∀ k, wait_exponential servicePolicy k = specClaimedWait servicePolicy k) ∧
    (0.2 ≤ gatewayPolicy.multiplier ∧ gatewayPolicy.multiplier ≤ 0.5 ∧
     1 ≤ gatewayPolicy.max ∧ gatewayPolicy.max ≤ 2 ∧
     gatewayPolicy.min = gatewayPolicy.multiplier) ∧
    (0.2 ≤ servicePolicy.multiplier ∧ servicePolicy.multiplier ≤ 0.5 ∧
     1 ≤ servicePolicy.max ∧ servicePolicy.max ≤ 2 ∧
     servicePolicy.min = servicePolicy.multiplier) ∧
    gatewayPolicy.maxAttempts = 3 ∧ servicePolicy.maxAttempts = 3 ∧
    clientTimeout = 5 := by
  refine ⟨tenacityRun_le env, fun e h => tenacityRun_error env e h, ?_, ?_,
    ⟨by norm_num [gatewayPolicy], by norm_num [gatewayPolicy],
     by norm_num [gatewayPolicy], by norm_num [gatewayPolicy], rfl⟩,
    ⟨by norm_num [servicePolicy], by norm_num [servicePolicy],
     by norm_num [servicePolicy], by norm_num [servicePolicy], rfl⟩,
    rfl, rfl, by norm_num [clientTimeout]⟩
  · intro k
    unfold wait_exponential specClaimedWait
    congr 1
    exact max_eq_right (by norm_num [gatewayPolicy])
  · intro k
    unfold wait_exponential specClaimedWait
    congr 1
    exact max_eq_right (by norm_num [servicePolicy])

/-- Witness for C8 at a concrete input: all three attempts time out, the
fetch fails after exactly 3 attempts, and the first two computed waits agree
with the claimed formula. -/
theorem C8_witness :
    (tenacityRun 3 (fun _ => (.transport : Attempt GhData))).2 = 3 ∧
    wait_exponential gatewayPolicy 1 = specClaimedWait gatewayPolicy 1 ∧
    wait_exponential servicePolicy 2 = specClaimedWait servicePolicy 2 := by
  refine ⟨?_, ?_, ?_⟩
  · exact ((C8_spec (fun _ => .transport)).2.1 (.retryError .otherExc) rfl).1
  · exact (C8_spec (fun _ => .transport)).2.2.1 1
  · exact (C8_spec (fun _ => .transport)).2.2.2.1 2

/-- C10: a failing invocation of any source leaves that source cache slot
unchanged, and when the HTTP status carried by the failure (looking through
the RetryError wrapper) is not 403 and not 429, the cooldown gate is also
unchanged. -/
theorem C10_spec (now : Nat) (sa : AState) (sb : BState) (sc : CState)
    (envA : Nat → Attempt AData) (envB envC : Nat → Attempt GhData) :
    (∀ e, (tenacityRun 3 envA).1 = .error e →
      (datasets now sa envA).state.datasets = sa.datasets ∧
      (e.statusCode ≠ some 403 ∧ e.statusCode ≠ some 429 →
        (datasets now sa envA).state.cooldownUntil = sa.cooldownUntil)) ∧
    (∀ e, (tenacityRun 3 envB).1 = .error e →
      (stats now sb envB).state.repos = sb.repos ∧
      (e.statusCode ≠ some 403 ∧ e.statusCode ≠ some 429 →
        (stats now sb envB).state.cooldownUntil = sb.cooldownUntil)) ∧
    (∀ e, (tenacityRun 3 envC).1 = .error e →
      (lineage now sc envC).state.repos = sc.repos ∧
      (e.statusCode ≠ some 403 ∧ e.statusCode ≠ some 429 →
        (lineage now sc envC).state.cooldownUntil = sc.cooldownUntil)) := by
  refine ⟨?_, ?_, ?_⟩
  · intro e h
    by_cases hcd : sa.cooldownUntil ≠ 0 ∧ now < sa.cooldownUntil
    · simp [datasets, hcd]
    · rcases hr : tenacityRun 3 envA with ⟨res, n⟩
      rw [hr] at h
      simp only at h
      subst h
      cases e with
      | httpStatusError code =>
        by_cases hc : code = some 429
        · subst hc
          refine ⟨by simp [datasets, hcd, hr], ?_⟩
          intro hcode
          exact absurd rfl hcode.2
        · simp [datasets, hcd, hr, hc, PyExc.statusCode]
      | retryError l => simp [datasets, hcd, hr]
      | otherExc => simp [datasets, hcd, hr]
  · intro e h
    by_cases hcd : sb.cooldownUntil ≠ 0 ∧ now < sb.cooldownUntil
    · simp [stats, hcd]
    · rcases hr : tenacityRun 3 envB with ⟨res, n⟩
      rw [hr] at h
      simp only at h
      subst h
      cases e with
      | httpStatusError code =>
        by_cases hc : code = some 403 ∨ code = some 429
        · refine ⟨by simp [stats, hcd, hr, hc], ?_⟩
          intro hcode
          rcases hc with hc | hc
          · exact absurd (by simp [PyExc.statusCode, hc]) hcode.1
          · exact absurd (by simp [PyExc.statusCode, hc]) hcode.2
        · simp [stats, hcd, hr, hc, PyExc.statusCode]
      | retryError l => simp [stats, hcd, hr]
      | otherExc => simp [stats, hcd, hr]
  · intro e h
    by_cases hcd : sc.cooldownUntil ≠ 0 ∧ now < sc.cooldownUntil
    · simp [lineage, hcd]
    · rcases hr : tenacityRun 3 envC with ⟨res, n⟩
      rw [hr] at h
      simp only at h
      subst h
      cases e with
      | httpStatusError code =>
        by_cases hc : code = some 403 ∨ code = some 429
        · refine ⟨by simp [lineage, hcd, hr, hc], ?_⟩
          intro hcode
          rcases hc with hc | hc
          · exact absurd (by simp [PyExc.statusCode, hc]) hcode.1
          · exact absurd (by simp [PyExc.statusCode, hc]) hcode.2
        · simp [lineage, hcd, hr, hc, PyExc.statusCode]
      | retryError l => simp [lineage, hcd, hr]
      | otherExc => simp [lineage, hcd, hr]

/-- Witness for C10: every attempt fails with HTTP 500; cache and gate of
service b are unchanged. -/
theorem C10_witness :
    (stats 7 ⟨[⟨some "r", some 1, some "u"⟩], 0⟩ (fun _ => .httpStatus 500)).state.repos =
      [⟨some "r", some 1, some "u"⟩] ∧
    (stats 7 ⟨[⟨some "r", some 1, some "u"⟩], 0⟩ (fun _ => .httpStatus 500)).state.cooldownUntil = 0 := by
  have h := (C10_spec 7 AState.init ⟨[⟨some "r", some 1, some "u"⟩], 0⟩ CState.init
    (fun _ => .transport) (fun _ => .httpStatus 500) (fun _ => .transport)).2.1
    (.retryError (.httpStatusError (some 500))) rfl
  exact ⟨h.1, h.2 (by decide)⟩

/-- C7 amended: the service-level cache slots satisfy the claimed lifecycle:
statically seeded, never cleared, overwritten only by a successful fetch
whose parsed payload is non-empty (and then to exactly that payload), and
read and returned whenever the fetch fails or the cooldown short-circuits.
The gateway cache slots are also seeded and read on failure, but each is
overwritten by any successful response that passes its shape guard, which
checks only isinstance(x, dict) for slots b and c and the dict shape plus
the presence of the datasets key for slot a, with no non-emptiness check, so
empty payloads, and for slot b the repos-less fallback payload, overwrite
previously good values. -/
theorem C7_amended (now : Nat) (sa : AState) (sb : BState) (sc : CState)
    (envA : Nat → Attempt AData) (envB envC : Nat → Attempt GhData)
    (st : GwCache) (ra rb rfb rc : Except PyExc GwPayload) :
    (AState.init = ⟨["bitcoin: -", "ethereum: -"], 0⟩ ∧ BState.init = ⟨[], 0⟩ ∧
     CState.init = ⟨[], 0⟩ ∧
     seedCache = ⟨.objA (aPayload ["bitcoin: -", "ethereum: -"]),
       .objB (bPayload []), .objC (cPayload [])⟩) ∧
    ((datasets now sa envA).state.datasets ≠ sa.datasets →
      ∃ d n, tenacityRun 3 envA = (.ok d, n) ∧ parseDatasets d ≠ [] ∧
        (datasets now sa envA).state.datasets = parseDatasets d) ∧
    ((stats now sb envB).state.repos ≠ sb.repos →
      ∃ d n, tenacityRun 3 envB = (.ok d, n) ∧ parseRepos d.items ≠ [] ∧
        (stats now sb envB).state.repos = parseRepos d.items) ∧
    ((lineage now sc envC).state.repos ≠ sc.repos →
      ∃ d n, tenacityRun 3 envC = (.ok d, n) ∧ parseRepos d.items ≠ [] ∧
        (lineage now sc envC).state.repos = parseRepos d.items) ∧
    (∀ e, (tenacityRun 3 envA).1 = .error e →
      (datasets now sa envA).payload = aPayload sa.datasets) ∧
    (∀ e, (tenacityRun 3 envB).1 = .error e →
      (stats now sb envB).payload = bPayload sb.repos) ∧
    (∀ e, (tenacityRun 3 envC).1 = .error e →
      (lineage now sc envC).payload = cPayload sc.repos) ∧
    (sa.cooldownUntil ≠ 0 ∧ now < sa.cooldownUntil →
      (datasets now sa envA).payload = aPayload sa.datasets) ∧
    (sb.cooldownUntil ≠ 0 ∧ now < sb.cooldownUntil →
      (stats now sb envB).payload = bPayload sb.repos) ∧
    (sc.cooldownUntil ≠ 0 ∧ now < sc.cooldownUntil →
      (lineage now sc envC).payload = cPayload sc.repos) ∧
    ((aggregate st ra rb rfb rc).cache.b ≠ st.b →
      ((∃ v, rb = Except.ok v ∧ v.isDict = true ∧
         (aggregate st ra rb rfb rc).cache.b = v) ∨
       (∃ e v, rb = Except.error e ∧ rfb = Except.ok v ∧ v.isDict = true ∧
         (aggregate st ra rb rfb rc).cache.b = v))) ∧
    (∀ e e2, rb = Except.error e → rfb = Except.error e2 →
      (aggregate st ra rb rfb rc).b = st.b ∧
      (aggregate st ra rb rfb rc).cache.b = st.b) ∧
    ((aggregate st ra rb rfb rc).cache.a ≠ st.a →
      ∃ v, ra = Except.ok v ∧ (v.isDict && v.hasKeyDatasets) = true ∧
        (aggregate st ra rb rfb rc).cache.a = v) ∧
    ((aggregate st ra rb rfb rc).cache.c ≠ st.c →
      ∃ v, rc = Except.ok v ∧ v.isDict = true ∧
        (aggregate st ra rb rfb rc).cache.c = v) ∧
    (∀ e, ra = Except.error e →
      (aggregate st ra rb rfb rc).a = st.a ∧
      (aggregate st ra rb rfb rc).cache.a = st.a) ∧
    (∀ e, rc = Except.error e →
      (aggregate st ra rb rfb rc).c = st.c ∧
      (aggregate st ra rb rfb rc).cache.c = st.c) := by
  refine ⟨⟨rfl, rfl, rfl, rfl⟩, ?_, ?_, ?_, ?_, ?_, ?_, ?_, ?_, ?_, ?_, ?_, ?_, ?_, ?_, ?_⟩
  · intro hne
    by_cases hcd : sa.cooldownUntil ≠ 0 ∧ now < sa.cooldownUntil
    · simp [datasets, hcd] at hne
    · rcases hr : tenacityRun 3 envA with ⟨res, n⟩
      cases res with
      | ok d =>
        by_cases hp : parseDatasets d = []
        · simp [datasets, hcd, hr, hp] at hne
        · exact ⟨d, n, rfl, hp, by simp [datasets, hcd, hr, hp]⟩
      | error e =>
        cases e with
        | httpStatusError code =>
          by_cases hc : code = some 429
          · simp [datasets, hcd, hr, hc] at hne
          · simp [datasets, hcd, hr, hc] at hne
        | retryError l => simp [datasets, hcd, hr] at hne
        | otherExc => simp [datasets, hcd, hr] at hne
  · intro hne
    by_cases hcd : sb.cooldownUntil ≠ 0 ∧ now < sb.cooldownUntil
    · simp [stats, hcd] at hne
    · rcases hr : tenacityRun 3 envB with ⟨res, n⟩
      cases res with
      | ok d =>
        by_cases hp : parseRepos d.items = []
        · simp [stats, hcd, hr, hp] at hne
        · exact ⟨d, n, rfl, hp, by simp [stats, hcd, hr, hp]⟩
      | error e =>
        cases e with
        | httpStatusError code =>
          by_cases hc : code = some 403 ∨ code = some 429
          · simp [stats, hcd, hr, hc] at hne
          · simp [stats, hcd, hr, hc] at hne
        | retryError l => simp [stats, hcd, hr] at hne
        | otherExc => simp [stats, hcd, hr] at hne
  · intro hne
    by_cases hcd : sc.cooldownUntil ≠ 0 ∧ now < sc.cooldownUntil
    · simp [lineage, hcd] at hne
    · rcases hr : tenacityRun 3 envC with ⟨res, n⟩
      cases res with
      | ok d =>
        by_cases hp : parseRepos d.items = []
        · simp [lineage, hcd, hr, hp] at hne
        · exact ⟨d, n, rfl, hp, by simp [lineage, hcd, hr, hp]⟩
      | error e =>
        cases e with
        | httpStatusError code =>
          by_cases hc : code = some 403 ∨ code = some 429
          · simp [lineage, hcd, hr, hc] at hne
          · simp [lineage, hcd, hr, hc] at hne
        | retryError l => simp [lineage, hcd, hr] at hne
        | otherExc => simp [lineage, hcd, hr] at hne
  · intro e h
    by_cases hcd : sa.cooldownUntil ≠ 0 ∧ now < sa.cooldownUntil
    · simp [datasets, hcd]
    · rcases hr : tenacityRun 3 envA with ⟨res, n⟩
      rw [hr] at h
      simp only at h
      subst h
      cases e with
      | httpStatusError code =>
        by_cases hc : code = some 429
        · simp [datasets, hcd, hr, hc]
        · simp [datasets, hcd, hr, hc]
      | retryError l => simp [datasets, hcd, hr]
      | otherExc => simp [datasets, hcd, hr]
  · intro e h
    by_cases hcd : sb.cooldownUntil ≠ 0 ∧ now < sb.cooldownUntil
    · simp [stats, hcd]
    · rcases hr : tenacityRun 3 envB with ⟨res, n⟩
      rw [hr] at h
      simp only at h
      subst h
      cases e with
      | httpStatusError code =>
        by_cases hc : code = some 403 ∨ code = some 429
        · simp [stats, hcd, hr, hc]
        · simp [stats, hcd, hr, hc]
      | retryError l => simp [stats, hcd, hr]
      | otherExc => simp [stats, hcd, hr]
  · intro e h
    by_cases hcd : sc.cooldownUntil ≠ 0 ∧ now < sc.cooldownUntil
    · simp [lineage, hcd]
    · rcases hr : tenacityRun 3 envC with ⟨res, n⟩
      rw [hr] at h
      simp only at h
      subst h
      cases e with
      | httpStatusError code =>
        by_cases hc : code = some 403 ∨ code = some 429
        · simp [lineage, hcd, hr, hc]
        · simp [lineage, hcd, hr, hc]
      | retryError l => simp [lineage, hcd, hr]
      | otherExc => simp [lineage, hcd, hr]
  · intro hcd
    simp [datasets, hcd]
  · intro hcd
    simp [stats, hcd]
  · intro hcd
    simp [lineage, hcd]
  · intro hne
    cases rb with
    | ok v =>
      by_cases hd : v.isDict = true
      · exact Or.inl ⟨v, rfl, hd, by simp [aggregate, hd]⟩
      · simp [aggregate, hd] at hne
    | error e =>
      cases rfb with
      | ok v =>
        by_cases hd : v.isDict = true
        · exact Or.inr ⟨e, v, rfl, rfl, hd, by simp [aggregate, hd]⟩
        · simp [aggregate, hd] at hne
      | error e2 => simp [aggregate] at hne
  · intro e e2 hb hfb
    subst hb
    subst hfb
    exact ⟨rfl, rfl⟩
  · intro hne
    cases ra with
    | ok v =>
      by_cases hd : (v.isDict && v.hasKeyDatasets) = true
      · exact ⟨v, rfl, hd, by simp [aggregate, hd]⟩
      · simp [aggregate, hd] at hne
    | error e => simp [aggregate] at hne
  · intro hne
    cases rc with
    | ok v =>
      by_cases hd : v.isDict = true
      · exact ⟨v, rfl, hd, by simp [aggregate, hd]⟩
      · simp [aggregate, hd] at hne
    | error e => simp [aggregate] at hne
  · intro e he
    subst he
    exact ⟨rfl, rfl⟩
  · intro e he
    subst he
    exact ⟨rfl, rfl⟩

/-- Witness for C7 amended at concrete inputs: a non-empty successful fetch
overwrites the service b cache with exactly the parsed repos, and a failing
fetch returns the cached repos. -/
theorem C7_witness :
    (∃ d n, tenacityRun 3 (fun _ => .ok (.dict [⟨some "r", some 2, some "u"⟩])) = (.ok d, n) ∧
      parseRepos (GhData.items d) ≠ [] ∧
      (stats 9 BState.init (fun _ => .ok (.dict [⟨some "r", some 2, some "u"⟩]))).state.repos =
        parseRepos (GhData.items d)) ∧
    (stats 9 ⟨[⟨some "r", some 2, some "u"⟩], 0⟩ (fun _ => .transport)).payload =
      bPayload [⟨some "r", some 2, some "u"⟩] := by
  refine ⟨?_, ?_⟩
  · exact (C7_amended 9 AState.init BState.init CState.init (fun _ => .transport)
      (fun _ => .ok (.dict [⟨some "r", some 2, some "u"⟩])) (fun _ => .transport)
      seedCache (.error .otherExc) (.error .otherExc) (.error .otherExc)
      (.error .otherExc)).2.2.1 (by decide)
  · exact (C7_amended 9 AState.init ⟨[⟨some "r", some 2, some "u"⟩], 0⟩ CState.init
      (fun _ => .transport) (fun _ => .transport) (fun _ => .transport)
      seedCache (.error .otherExc) (.error .otherExc) (.error .otherExc)
      (.error .otherExc)).2.2.2.2.2.1 (.retryError .otherExc) rfl

end Resilient
